import Mathlib

/-!
Verification of the DuckDB/Polars/Pandas benchmarking harness
(`duckdb_polars_pandas` variant of the repository).

Shallow embedding of the measurement-harness modules:

* `benchmark_runner.py` — `parse_output`, `summarize`, `benchmarking`,
  `run_cold_benchmark`, `run_hot_benchmark`, `run_warm_benchmark`,
  `export_results_csv`;
* `benchmark_target.py` — `run_benchmark` (the cold measurement primitive);
* `benchmark_engine.py` — `cold_benchmark`, `hot_benchmark`;
* `plotter.py` — `load_and_concat_csvs` (its row-extraction behaviour);
* `duckdb_polars_pandas_pyarrow/main.py` — the statistics block of `main`.

Numeric values are modelled by `ℚ`.  Python's `float` on decimal literals
and the decimal arithmetic of the harness are exact at the granularity the
claims use, so rationals are a faithful carrier (claims about rounding in
the printed `:.2f` formatting are not made).  `math`/`statistics` square
roots are floating point; they enter only through `statistics.stdev`, which
we model by an explicit square-root parameter `sq : ℚ → ℚ` threaded through
`summarize`, so every statement about `std` is explicit about what is
assumed of the square root.
-/

namespace DuckBench

/-! ## Python character classes and `float()` on regex groups -/

/-- The character class `[0-9.]` of the result-parsing regexes. -/
def isDigitDot (c : Char) : Bool := c.isDigit || c = '.'

/-- Python's `\s` on the ASCII range: space, tab, newline, carriage return,
vertical tab, form feed. -/
def isPySpace (c : Char) : Bool :=
  c = ' ' || c = '\t' || c = '\n' || c = '\r' || c = '\x0b' || c = '\x0c'

/-- Value of a digit string as a natural number (most significant first). -/
def digitsVal (ds : List Char) : ℕ :=
  ds.foldl (fun acc c => 10 * acc + (c.toNat - 48)) 0

/-- Python `float(s)` restricted to strings drawn from the class `[0-9.]+`
(the only strings the harness ever converts).  Such a string converts
successfully iff it has at most one `'.'` and at least one digit
(`float("1.2.3")` and `float(".")` raise `ValueError`); the value is the
usual decimal reading. -/
def pyFloat? (cs : List Char) : Option ℚ :=
  if cs.count '.' ≤ 1 ∧ cs.any (·.isDigit) then
    let ip := cs.takeWhile (· ≠ '.')
    let fp := (cs.dropWhile (· ≠ '.')).drop 1
    some ((digitsVal ip : ℚ) + (digitsVal fp : ℚ) / (10 : ℚ) ^ fp.length)
  else
    none

/-- The integer part, fractional digits and fractional length `pyFloat?`
reads off — kept in `ℕ` so that concrete conversions can be computed by
`decide` (rational arithmetic does not reduce in the kernel). -/
def pyFloatParts (cs : List Char) : Option (ℕ × ℕ × ℕ) :=
  if cs.count '.' ≤ 1 ∧ cs.any (·.isDigit) then
    let ip := cs.takeWhile (· ≠ '.')
    let fp := (cs.dropWhile (· ≠ '.')).drop 1
    some (digitsVal ip, digitsVal fp, fp.length)
  else
    none

theorem pyFloat?_eq_parts (cs : List Char) :
    pyFloat? cs = (pyFloatParts cs).map (fun p => (p.1 : ℚ) + (p.2.1 : ℚ) / (10 : ℚ) ^ p.2.2) := by
  unfold pyFloat? pyFloatParts
  split <;> rfl

namespace BenchmarkRunner

/-! ## `benchmark_runner.parse_output`

```python
mem_match = re.search(r"Memory\s*=\s*([0-9.]+)\s*MB", output)
time_match = re.search(r"Time\s*=\s*([0-9.]+)\s*s", output)
if mem_match and time_match:
    return float(mem_match.group(1)), float(time_match.group(1))
return None
```

Both regexes have the shape `KW\s*=\s*([0-9.]+)\s*UNIT` with `KW`/`UNIT`
literals.  For this shape, greedy matching with backtracking coincides with
maximal munch at every star/plus (no unit begins with a space, a digit or a
dot), so we implement the match attempt at one position by maximal munch,
and `re.search` by trying every position left to right. -/

/-- Match a literal word at the head of the input, returning the rest. -/
def matchLit : List Char → List Char → Option (List Char)
  | [], cs => some cs
  | _ :: _, [] => none
  | l :: ls, c :: cs => if c = l then matchLit ls cs else none

/-- Attempt the pattern `KW\s*=\s*([0-9.]+)\s*UNIT` at the current position;
on success return the group `[0-9.]+`. -/
def tryPat (kw unit cs : List Char) : Option (List Char) :=
  match matchLit kw cs with
  | none => none
  | some r1 =>
    match r1.dropWhile isPySpace with
    | [] => none
    | e :: r3 =>
      if e = '=' then
        let r4 := r3.dropWhile isPySpace
        let g := r4.takeWhile isDigitDot
        let r6 := r4.dropWhile isDigitDot
        if g.isEmpty then none
        else
          match matchLit unit (r6.dropWhile isPySpace) with
          | none => none
          | some _ => some g
      else none

/-- Model of `re.search`: try the pattern at each position, leftmost first. -/
def searchPat (kw unit : List Char) : List Char → Option (List Char)
  | [] => none
  | c :: rest =>
    match tryPat kw unit (c :: rest) with
    | some g => some g
    | none => searchPat kw unit rest

/-- Errors a modelled Python function can raise to its caller. -/
inductive PyError
  | valueError
  | attributeError
  deriving DecidableEq, Repr

/-- Model of `benchmark_runner.parse_output`.  `.ok none` is Python's `None` (a match
was missing); `.error .valueError` is the uncaught `ValueError` that
`float` raises on a group such as `"1.2.3"`. -/
def parse_output (output : List Char) : Except PyError (Option (ℚ × ℚ)) :=
  match searchPat ("Memory".toList) ("MB".toList) output,
        searchPat ("Time".toList) ("s".toList) output with
  | some mg, some tg =>
    match pyFloat? mg, pyFloat? tg with
    | some m, some t => .ok (some (m, t))
    | _, _ => .error .valueError
  | _, _ => .ok none

/-! ## `benchmark_runner.summarize`

```python
if not values:
    print(f"--- {label} ---"); print("No data."); return
mean = statistics.mean(values)
std = statistics.stdev(values) if len(values) > 1 else 0.0
cv = (std / mean) * 100 if mean != 0 else 0
minv = min(values); maxv = max(values); span = maxv - minv
print Mean/Std/CV/Min/Max/Span
```

`statistics.mean` is `sum/len`; `statistics.stdev` is
`sqrt(Σ(x-mean)²/(n-1))`.  The square root is the floating-point `sqrt`,
modelled by the explicit parameter `sq`.  (`benchmark.py`'s `summarize` is
identical except that its guard is the truthiness test `if mean`, which
agrees with `mean != 0` on numbers.) -/

/-- Model of `statistics.mean`. -/
def pyMean (values : List ℚ) : ℚ := values.sum / values.length

/-- The sample variance `Σ(x-mean)²/(n-1)` whose square root
`statistics.stdev` returns. -/
def sampleVar (values : List ℚ) : ℚ :=
  ((values.map (fun x => (x - pyMean values) ^ 2)).sum) / ((values.length : ℚ) - 1)

/-- Python `min` on a non-empty list. -/
def pyMin : List ℚ → ℚ
  | [] => 0
  | x :: xs => xs.foldl min x

/-- Python `max` on a non-empty list. -/
def pyMax : List ℚ → ℚ
  | [] => 0
  | x :: xs => xs.foldl max x

/-- The six statistics `summarize` prints for a non-empty input. -/
structure Summary where
  mean : ℚ
  std : ℚ
  cv : ℚ
  minv : ℚ
  maxv : ℚ
  span : ℚ
  deriving DecidableEq, Repr

/-- Result of `summarize`: the `"No data."` branch or the statistics. -/
inductive SummarizeResult
  | noData
  | stats (s : Summary)
  deriving DecidableEq, Repr

/-- Model of `benchmark_runner.summarize`, with the floating-point square root used
by `statistics.stdev` passed in as `sq`. -/
def summarize (sq : ℚ → ℚ) (values : List ℚ) : SummarizeResult :=
  if values.isEmpty then .noData
  else
    let mean := pyMean values
    let std := if values.length > 1 then sq (sampleVar values) else 0
    let cv := if mean ≠ 0 then (std / mean) * 100 else 0
    let minv := pyMin values
    let maxv := pyMax values
    .stats ⟨mean, std, cv, minv, maxv, maxv - minv⟩

/-- The labelled statistic lines `summarize` prints (empty on the
`"No data."` branch), in print order: Mean, Std, CV, Min, Max, Span. -/
def summarizeLines (sq : ℚ → ℚ) (values : List ℚ) : List (String × ℚ) :=
  match summarize sq values with
  | .noData => []
  | .stats s =>
    [("Mean", s.mean), ("Std", s.std), ("CV", s.cv),
     ("Min", s.minv), ("Max", s.maxv), ("Span", s.span)]

/-! ## `benchmark_runner.export_results_csv` and the CSV read-back

```python
writer.writerow(["backend", "function", "mode", "run", "memory_mb", "time_s"])
for i, (mem, t) in enumerate(zip(memories, times), 1):
    writer.writerow([backend, function, mode, i, mem, t])
```

A written file is modelled at the value level (the decimal serialization
round-trips within floating-point tolerance, which is the tolerance the
spec grants): a header line of column names followed by data rows. -/

/-- One data row of a results CSV. -/
structure ResultRow where
  backend : String
  function : String
  mode : String
  run : ℕ
  memory_mb : ℚ
  time_s : ℚ
  deriving DecidableEq, Repr

/-- The fixed header of `export_results_csv`. -/
def headerRow : List String :=
  ["backend", "function", "mode", "run", "memory_mb", "time_s"]

/-- A line of the written CSV file. -/
inductive CsvLine
  | header (cols : List String)
  | data (r : ResultRow)
  deriving DecidableEq, Repr

/-- Model of `benchmark_runner.export_results_csv` (the file it writes). -/
def export_results_csv (backend function mode : String)
    (memories times : List ℚ) : List CsvLine :=
  .header headerRow ::
    ((memories.zip times).enumFrom 1).map
      (fun p => .data ⟨backend, function, mode, p.1, p.2.1, p.2.2⟩)

/-- The data rows `pandas.read_csv` (as used by
`plotter.load_and_concat_csvs`) recovers from a written file: every line
after the header. -/
def read_csv (file : List CsvLine) : List ResultRow :=
  file.filterMap (fun l => match l with | .data r => some r | .header _ => none)

/-! ## `benchmark_runner.benchmarking` (the in-process hot/warm loop)

Each iteration redirects `sys.stdout` to a fresh `StringIO`, calls
`benchmark_target.main()`, parses the captured text, and appends the parsed
pair; `except Exception` swallows both an exception from the target and the
`ValueError` a malformed float group raises, so a failed iteration is
skipped and the loop continues.  One iteration of the loop is determined by
the outcome of its `benchmark_target.main()` call. -/

/-- Outcome of one `benchmark_target.main()` invocation driven in-process:
either it raises, or it completes having printed `out`. -/
inductive RunOutcome
  | raises (msg : String)
  | output (out : List Char)
  deriving DecidableEq, Repr

/-- The record one iteration of `benchmarking` appends:  `none` when the
target raised, when the captured text did not parse (warning printed), or
when `float` raised inside the `try` (caught by `except Exception`). -/
def hotExtract (o : RunOutcome) : Option (ℚ × ℚ) :=
  match o with
  | .raises _ => none
  | .output out =>
    match parse_output out with
    | .ok (some mt) => some mt
    | .ok none => none
    | .error _ => none

/-- Model of `benchmark_runner.benchmarking`: the list of (memory, time) records the
loop appends to `memories`/`times`, in run order. -/
def benchmarking (outcomes : List RunOutcome) : List (ℚ × ℚ) :=
  outcomes.filterMap hotExtract

/-- Model of `benchmark_runner.run_hot_benchmark`: drive `benchmarking`, then export
the collected records. -/
def run_hot_benchmark (backend function mode : String)
    (outcomes : List RunOutcome) : List CsvLine :=
  let recs := benchmarking outcomes
  export_results_csv backend function mode (recs.map Prod.fst) (recs.map Prod.snd)

/-- Model of `benchmark_runner.run_warm_benchmark`: the warm-up loop calls the
target `n_warmup` times with output sent to `devnull` and
`except Exception: pass` around each call, appending nothing anywhere;
then fresh `memories, times = [], []` are filled by `benchmarking` over the
measured runs and exported. -/
def run_warm_benchmark (backend function mode : String)
    (warmupOutcomes measuredOutcomes : List RunOutcome) : List CsvLine :=
  let recs :=
    (warmupOutcomes.map (fun _ => ())).foldl (fun acc _ => acc)
      (benchmarking measuredOutcomes)
  export_results_csv backend function mode (recs.map Prod.fst) (recs.map Prod.snd)

/-! ## `benchmark_runner.run_cold_benchmark`

```python
try:
    result = subprocess.check_output([...], stderr=subprocess.STDOUT)
    run_output = result.decode().strip()
    parsed = parse_output(run_output)
    if parsed: ... append ...
    else: print("Warning: Could not parse output!")
except subprocess.CalledProcessError as e:
    print(f"Run failed: {e.run_output.decode()}")
except subprocess.TimeoutExpired:
    print("Run timed out!")
```

`subprocess.CalledProcessError` has no attribute `run_output` (the field is
`output`), so the first `except` clause itself raises `AttributeError`,
which nothing catches: the loop, the summary and the CSV export are
abandoned.  A `ValueError` from `float` inside `parse_output` is likewise
caught by neither clause. -/

/-- Outcome of one cold-mode subprocess. -/
inductive ColdOutcome
  | completed (out : List Char)
  | nonZeroExit (out : List Char)
  | timedOut
  deriving DecidableEq, Repr

/-- The per-run loop of `run_cold_benchmark`: either the collected records,
or the uncaught exception that aborts the session. -/
def run_cold_loop : List ColdOutcome → Except PyError (List (ℚ × ℚ))
  | [] => .ok []
  | o :: rest =>
    match o with
    | .completed out =>
      match parse_output out with
      | .ok (some mt) => (run_cold_loop rest).map (mt :: ·)
      | .ok none => run_cold_loop rest
      | .error e => .error e
    | .nonZeroExit _ => .error .attributeError
    | .timedOut => run_cold_loop rest

/-- Model of `benchmark_runner.run_cold_benchmark`: on normal completion, the CSV
file written at the end; on an uncaught exception, the error (no summary is
printed and no file is written). -/
def run_cold_benchmark (backend function mode : String)
    (outcomes : List ColdOutcome) : Except PyError (List CsvLine) :=
  (run_cold_loop outcomes).map (fun recs =>
    export_results_csv backend function mode (recs.map Prod.fst) (recs.map Prod.snd))

/-! ## The global stream state touched by the in-process loops

`benchmarking` saves `sys.stdout`, points it at a `StringIO`, and restores
it in a `finally`; the warm-up loop of `run_warm_benchmark` saves both
`sys.stdout` and `sys.stderr`, points them at `devnull`, and restores both
in a `finally`.  A `finally` block runs on the normal exit and on the
exceptional exit alike, so one iteration is modelled as a function of the
incoming stream state and whether the body raised. -/

/-- Which object each global stream currently references; `α` is the type
of stream identities. -/
structure Streams (α : Type) where
  stdout : α
  stderr : α
  deriving DecidableEq, Repr

/-- One iteration of the measured loop in `benchmarking`, acting on the
global streams: save `sys.stdout`, redirect it to the fresh buffer `buf`,
run the body (which may raise — `raised` — without touching the streams),
then restore `sys.stdout` in the `finally`. -/
def hotIterStreams {α : Type} (buf : α) (raised : Bool) (st : Streams α) : Streams α :=
  let old_stdout := st.stdout
  let redirected : Streams α := { st with stdout := buf }
  let afterBody := redirected
  match raised with
  | true => { afterBody with stdout := old_stdout }
  | false => { afterBody with stdout := old_stdout }

/-- One warm-up iteration of `run_warm_benchmark`, acting on the global
streams: save both streams, point both at `devnull`, run the target inside
`try/finally`, restore both in the `finally` (the outer
`except Exception: pass` then discards any exception). -/
def warmupIterStreams {α : Type} (devnull : α) (raised : Bool) (st : Streams α) : Streams α :=
  let old_stdout := st.stdout
  let old_stderr := st.stderr
  let redirected : Streams α := { stdout := devnull, stderr := devnull }
  let afterBody := redirected
  match raised with
  | true => { afterBody with stdout := old_stdout, stderr := old_stderr }
  | false => { afterBody with stdout := old_stdout, stderr := old_stderr }

end BenchmarkRunner

namespace BenchmarkEngine

/-! ## `benchmark_engine.hot_benchmark`

```python
for i in range(n_runs):
    start = time.perf_counter(); mem_before = get_memory_usage_mb()
    try:
        func()
    except Exception as e:
        print(f"Error in run {i + 1}: {e}", flush=True)
        break
    mem_after = ...; end = ...
    print(f"Memory = {...} MB, Time = {...} s")
```

An exception in any run `break`s out of the loop: no later run is
executed.  The per-run records of this mode are the printed
`Memory = ..., Time = ...` lines (the local `memories`/`times` lists are
never appended to); one run's outcome is either the measured pair or an
exception. -/

/-- Model of `benchmark_engine.hot_benchmark`: the measured records it prints, given
each run's outcome.  An exception stops the loop. -/
def hot_benchmark : List (Except String (ℚ × ℚ)) → List (ℚ × ℚ)
  | [] => []
  | .error _ :: _ => []
  | .ok mt :: rest => mt :: hot_benchmark rest

end BenchmarkEngine

namespace MeasureTrace

/-! ## The cold measurement primitives, as instruction traces

`benchmark_target.run_benchmark`:

```python
gc.collect()
start = time.perf_counter()
mem_before = get_memory_usage_mb()
func()
mem_after = get_memory_usage_mb()
end = time.perf_counter()
print(f"Memory = {mem_after - mem_before:.2f} MB")
print(f"Time = {end - start:.2f} s")
```

`benchmark_engine.cold_benchmark`:

```python
start = time.perf_counter()
mem_before = get_memory_usage_mb()
func()
mem_after = get_memory_usage_mb()
end = time.perf_counter()
print(f"Memory = {mem_after - mem_before:.2f} MB, Time = {end - start:.2f} s")
```

Both are straight-line code; their semantics at the granularity the claims
speak of is the sequence of measurement-relevant actions performed. -/

/-- A measurement-relevant action of a cold measurement. -/
inductive MeasureEvent
  | gcCollect
  | readClock
  | readMemory
  | callTarget
  | printLine
  deriving DecidableEq, Repr

/-- The action sequence of `benchmark_target.run_benchmark`. -/
def run_benchmark_events : List MeasureEvent :=
  [.gcCollect, .readClock, .readMemory, .callTarget,
   .readMemory, .readClock, .printLine, .printLine]

/-- The action sequence of `benchmark_engine.cold_benchmark`. -/
def cold_benchmark_events : List MeasureEvent :=
  [.readClock, .readMemory, .callTarget, .readMemory, .readClock, .printLine]

/-- Modelled from the spec: the measurement procedure the claim describes —
garbage-collect, sample memory and timestamp, invoke the target, sample
memory and timestamp, garbage-collect. -/
def claimedColdEvents : List MeasureEvent :=
  [.gcCollect, .readMemory, .readClock, .callTarget,
   .readMemory, .readClock, .gcCollect]

end MeasureTrace

namespace PyArrowMain

/-! ## `duckdb_polars_pandas_pyarrow/main.py`, statistics block

After the ten runs, `main` prints, per metric, exactly: median, mean, min,
max, span — no standard deviation and no coefficient of variation. -/

/-- The statistic labels `main` prints for each metric, in print order. -/
def statLabels : List String := ["Median", "Mean", "Min", "Max", "Span"]

end PyArrowMain

/-! # Supporting lemmas -/

namespace BenchmarkRunner

/-- A concrete output of one successful `benchmark_target.main()` run, as
the target prints it: a `Memory` line and a `Time` line. -/
def goodRunText : List Char := ("Memory = 1.00 MB" ++ "\n" ++ "Time = 2.00 s").toList

/-- The corresponding in-process run outcome. -/
def goodRun : RunOutcome := .output goodRunText

theorem parse_output_eq_of (out mg tg : List Char) (vm vt : ℚ)
    (hm : searchPat ("Memory".toList) ("MB".toList) out = some mg)
    (ht : searchPat ("Time".toList) ("s".toList) out = some tg)
    (hvm : pyFloat? mg = some vm) (hvt : pyFloat? tg = some vt) :
    parse_output out = .ok (some (vm, vt)) := by
  unfold parse_output
  rw [hm, ht]
  dsimp only
  rw [hvm, hvt]

theorem pyFloat_one : pyFloat? ("1.00".toList) = some 1 := by
  have h : pyFloatParts ("1.00".toList) = some (1, 0, 2) := by decide
  rw [pyFloat?_eq_parts, h]
  norm_num

theorem pyFloat_two : pyFloat? ("2.00".toList) = some 2 := by
  have h : pyFloatParts ("2.00".toList) = some (2, 0, 2) := by decide
  rw [pyFloat?_eq_parts, h]
  norm_num

theorem parse_goodRunText : parse_output goodRunText = .ok (some (1, 2)) :=
  parse_output_eq_of goodRunText ("1.00".toList) ("2.00".toList) 1 2
    (by decide) (by decide) pyFloat_one pyFloat_two

theorem hotExtract_goodRun : hotExtract goodRun = some (1, 2) := by
  show hotExtract (.output goodRunText) = some (1, 2)
  unfold hotExtract
  dsimp only
  rw [parse_goodRunText]

theorem hotExtract_raises (msg : String) : hotExtract (.raises msg) = none := rfl

theorem benchmarking_append (xs ys : List RunOutcome) :
    benchmarking (xs ++ ys) = benchmarking xs ++ benchmarking ys :=
  List.filterMap_append xs ys hotExtract

theorem length_filterMap_of_isSome {α β : Type} (f : α → Option β) :
    ∀ l : List α, (∀ o ∈ l, (f o).isSome = true) → (l.filterMap f).length = l.length
  | [], _ => rfl
  | x :: xs, h => by
    obtain ⟨b, hb⟩ := Option.isSome_iff_exists.1 (h x (List.mem_cons_self x xs))
    simp only [List.filterMap_cons, hb, List.length_cons]
    exact congrArg Nat.succ
      (length_filterMap_of_isSome f xs (fun o ho => h o (List.mem_cons_of_mem x ho)))

theorem foldl_keep {β : Type} : ∀ (l : List Unit) (x : β), l.foldl (fun acc _ => acc) x = x
  | [], _ => rfl
  | _ :: us, x => foldl_keep us x

end BenchmarkRunner

/-! # The claims -/

/-- Claim C1 (counterexample): in `benchmark_engine.hot_benchmark`, a hot
session of 5 runs in which exactly the 3rd run's target raises does not
collect 4 records and does not continue: the `break` abandons runs 4 and 5
and only the 2 records printed before the failure exist. -/
theorem claim1_counterexample :
    BenchmarkEngine.hot_benchmark
        [.ok (1, 2), .ok (1, 2), .error ("boom"), .ok (3, 4), .ok (5, 6)]
      = [(1, 2), (1, 2)] ∧
    (BenchmarkEngine.hot_benchmark
        [.ok (1, 2), .ok (1, 2), .error ("boom"), .ok (3, 4), .ok (5, 6)]).length ≠ 4 := by
  constructor
  · rfl
  · decide

/-- Claim C1 (amended): in `benchmark_runner`'s hot mode (`benchmarking`),
a run whose target raises is skipped and the session continues with the
remaining runs — with `runs=5` and exactly the 3rd run raising, exactly 4
records are collected; in `benchmark_engine`'s hot mode (`hot_benchmark`),
an exception breaks the loop, so only the records of the runs before the
failure are collected and the remaining runs never execute. -/
theorem claim1_amended :
    (∀ (xs ys : List BenchmarkRunner.RunOutcome) (msg : String),
      BenchmarkRunner.benchmarking (xs ++ .raises msg :: ys) =
        BenchmarkRunner.benchmarking xs ++ BenchmarkRunner.benchmarking ys) ∧
    (BenchmarkRunner.benchmarking
        [BenchmarkRunner.goodRun, BenchmarkRunner.goodRun,
         .raises ("boom"), BenchmarkRunner.goodRun, BenchmarkRunner.goodRun]).length = 4 ∧
    (∀ (pre : List (ℚ × ℚ)) (msg : String) (post : List (Except String (ℚ × ℚ))),
      BenchmarkEngine.hot_benchmark (pre.map .ok ++ .error msg :: post) = pre) := by
  refine ⟨fun xs ys msg => ?_, by decide, fun pre msg post => ?_⟩
  · simp only [BenchmarkRunner.benchmarking, List.filterMap_append, List.filterMap_cons,
      BenchmarkRunner.hotExtract]
  · induction pre with
    | nil => rfl
    | cons p ps ih =>
      simpa only [List.map_cons, List.cons_append, BenchmarkEngine.hot_benchmark] using
        congrArg (p :: ·) ih

/-- Claim C2 (code bug): in `benchmark_runner.run_cold_benchmark`, a run
whose subprocess exits non-zero makes the `except` clause itself raise
`AttributeError` (`CalledProcessError` has no attribute `run_output`), so
the session aborts instead of logging a warning and continuing; a run with
unparsable output, by contrast, is skipped and the session continues. -/
theorem claim2_cold_abort :
    BenchmarkRunner.run_cold_benchmark ("duckdb") ("filtering_and_counting") ("cold")
        [.nonZeroExit ("boom".toList), .completed BenchmarkRunner.goodRunText]
      = .error .attributeError ∧
    BenchmarkRunner.run_cold_loop
        [.completed ("garbage".toList), .completed BenchmarkRunner.goodRunText]
      = .ok [(1, 2)] := by
  constructor
  · rfl
  · have hgarb : BenchmarkRunner.parse_output ("garbage".toList) = .ok none := by rfl
    simp only [BenchmarkRunner.run_cold_loop, hgarb, BenchmarkRunner.parse_goodRunText,
      Except.map]

/-- Claim C9 (counterexample): the cold measurement procedures do not
garbage-collect on both sides of the sampling.
`benchmark_target.run_benchmark` performs no GC after the target call, and
`benchmark_engine.cold_benchmark` performs no GC at all, so neither trace
is the claimed GC–sample–invoke–sample–GC sequence. -/
theorem claim9_counterexample :
    (MeasureTrace.run_benchmark_events.dropWhile
        (fun e => !(e = MeasureTrace.MeasureEvent.callTarget))).count .gcCollect = 0 ∧
    MeasureTrace.cold_benchmark_events.count .gcCollect = 0 ∧
    MeasureTrace.run_benchmark_events ≠ MeasureTrace.claimedColdEvents ∧
    MeasureTrace.cold_benchmark_events ≠ MeasureTrace.claimedColdEvents := by
  decide

/-- Claim C9 (amended): `benchmark_target.run_benchmark` (the cold-mode
measurement) forces exactly one garbage-collection pass, as its first
action, before sampling the timestamp and memory, and none after the
target call; its procedure is GC, sample timestamp, sample memory, invoke
target, sample memory, sample timestamp, print.
`benchmark_engine.cold_benchmark` performs no garbage collection. -/
theorem claim9_amended :
    MeasureTrace.run_benchmark_events.count .gcCollect = 1 ∧
    MeasureTrace.run_benchmark_events.head? = some .gcCollect ∧
    MeasureTrace.run_benchmark_events.tail.count .gcCollect = 0 ∧
    MeasureTrace.run_benchmark_events =
      [.gcCollect, .readClock, .readMemory, .callTarget,
       .readMemory, .readClock, .printLine, .printLine] ∧
    MeasureTrace.cold_benchmark_events.count .gcCollect = 0 := by
  decide

/-- Claim C10: each in-process run restores `sys.stdout` (and, for warm-up
runs, also `sys.stderr`) to its pre-run value on every exit path, whether
or not the invoked target raised; hence any sequence of iterations leaves
the global streams exactly as they were. -/
theorem claim10_streams_restored {α : Type} (buf devnull : α)
    (st : BenchmarkRunner.Streams α) (raisedSeq : List Bool) :
    (∀ raised, BenchmarkRunner.hotIterStreams buf raised st = st) ∧
    (∀ raised, BenchmarkRunner.warmupIterStreams devnull raised st = st) ∧
    raisedSeq.foldl (fun s r => BenchmarkRunner.hotIterStreams buf r s) st = st ∧
    raisedSeq.foldl (fun s r => BenchmarkRunner.warmupIterStreams devnull r s) st = st := by
  have hhot : ∀ (s : BenchmarkRunner.Streams α) raised,
      BenchmarkRunner.hotIterStreams buf raised s = s := by
    intro s raised
    cases raised <;> rfl
  have hwarm : ∀ (s : BenchmarkRunner.Streams α) raised,
      BenchmarkRunner.warmupIterStreams devnull raised s = s := by
    intro s raised
    cases raised <;> rfl
  refine ⟨hhot st, hwarm st, ?_, ?_⟩
  · induction raisedSeq with
    | nil => rfl
    | cons r rs ih => simpa only [List.foldl_cons, hhot] using ih
  · induction raisedSeq with
    | nil => rfl
    | cons r rs ih => simpa only [List.foldl_cons, hwarm] using ih

/-- Claim C5: for a single-sample sequence, `summarize` reports `std = 0`
and `cv = 0` whatever the sample is and whatever the square root does; and
for any non-empty sequence with mean 0, the guard makes `cv = 0` — the
division `std/mean` is never performed on a zero mean. -/
theorem claim5_degenerate_guards :
    (∀ (sq : ℚ → ℚ) (x : ℚ),
      ∃ s, BenchmarkRunner.summarize sq [x] = .stats s ∧ s.std = 0 ∧ s.cv = 0) ∧
    (∀ (sq : ℚ → ℚ) (values : List ℚ), values ≠ [] → BenchmarkRunner.pyMean values = 0 →
      ∃ s, BenchmarkRunner.summarize sq values = .stats s ∧ s.cv = 0) := by
  constructor
  · intro sq x
    refine ⟨_, rfl, ?_, ?_⟩
    · rfl
    · show (if BenchmarkRunner.pyMean [x] ≠ 0
          then ((if ([x] : List ℚ).length > 1 then sq (BenchmarkRunner.sampleVar [x]) else 0) /
                BenchmarkRunner.pyMean [x]) * 100
          else 0) = 0
      simp
  · intro sq values hne hmean
    rw [BenchmarkRunner.summarize, if_neg (by simpa [List.isEmpty_iff] using hne)]
    exact ⟨_, rfl, by simp [hmean]⟩

/-- Claim C6: for an empty sample sequence the Aggregator takes the
`"No data."` branch — no statistics are computed and nothing is raised —
and the Result Store export still writes a file consisting of exactly the
header row. -/
theorem claim6_empty_session (sq : ℚ → ℚ) (b f m : String) :
    BenchmarkRunner.summarize sq [] = .noData ∧
    BenchmarkRunner.summarizeLines sq [] = [] ∧
    BenchmarkRunner.export_results_csv b f m [] []
      = [.header BenchmarkRunner.headerRow] ∧
    BenchmarkRunner.read_csv (BenchmarkRunner.export_results_csv b f m [] []) = [] := by
  refine ⟨rfl, rfl, rfl, rfl⟩

/-- Witness for claim C5 at concrete inputs: the singleton `[7]` and the
zero-mean list `[0, 4, -4]`. -/
theorem claim5_witness :
    (∃ s, BenchmarkRunner.summarize id [(7 : ℚ)] = .stats s ∧ s.std = 0 ∧ s.cv = 0) ∧
    (∃ s, BenchmarkRunner.summarize id [(0 : ℚ), 4, -4] = .stats s ∧ s.cv = 0) :=
  ⟨claim5_degenerate_guards.1 id 7,
   claim5_degenerate_guards.2 id [0, 4, -4] (by simp)
     (by norm_num [BenchmarkRunner.pyMean])⟩

namespace BenchmarkRunner

theorem read_csv_cons_header (cols : List String) (rest : List CsvLine) :
    read_csv (.header cols :: rest) = read_csv rest := by
  simp [read_csv]

theorem read_csv_map_data : ∀ rs : List ResultRow, read_csv (rs.map CsvLine.data) = rs
  | [] => rfl
  | r :: rs => by
    simpa [read_csv, List.filterMap_cons] using read_csv_map_data rs

/-- The data rows written by `export_results_csv`, field by field, for any
list of (index, memory, time) triples produced by `enumerate`. -/
theorem enum_rows_spec (b f m : String) :
    ∀ (pairs : List (ℚ × ℚ)) (i : ℕ),
      (((pairs.enumFrom i).map
          (fun p => (⟨b, f, m, p.1, p.2.1, p.2.2⟩ : ResultRow))).map ResultRow.run
          = List.range' i pairs.length) ∧
      (((pairs.enumFrom i).map
          (fun p => (⟨b, f, m, p.1, p.2.1, p.2.2⟩ : ResultRow))).map ResultRow.memory_mb
          = pairs.map Prod.fst) ∧
      (((pairs.enumFrom i).map
          (fun p => (⟨b, f, m, p.1, p.2.1, p.2.2⟩ : ResultRow))).map ResultRow.time_s
          = pairs.map Prod.snd)
  | [], _ => by simp
  | p :: ps, i => by
    obtain ⟨h1, h2, h3⟩ := enum_rows_spec b f m ps (i + 1)
    refine ⟨?_, ?_, ?_⟩ <;>
      simp [List.enumFrom, List.range'_succ, h1, h2, h3]

/-- Writing `memories`/`times` of equal length through
`export_results_csv` and extracting the data rows again recovers the
records: `N` rows, run indices `1..N`, original fields, original order. -/
theorem export_read_roundtrip (b f m : String) (memories times : List ℚ)
    (h : memories.length = times.length) :
    (read_csv (export_results_csv b f m memories times)).length = memories.length ∧
    (read_csv (export_results_csv b f m memories times)).map ResultRow.run
      = List.range' 1 memories.length ∧
    (read_csv (export_results_csv b f m memories times)).map ResultRow.memory_mb
      = memories ∧
    (read_csv (export_results_csv b f m memories times)).map ResultRow.time_s
      = times := by
  have hz : (memories.zip times).length = memories.length := by
    rw [List.length_zip memories times, h, Nat.min_self]
  have hrows := enum_rows_spec b f m (memories.zip times) 1
  have hread : read_csv (export_results_csv b f m memories times)
      = ((memories.zip times).enumFrom 1).map
          (fun p => (⟨b, f, m, p.1, p.2.1, p.2.2⟩ : ResultRow)) := by
    rw [export_results_csv, read_csv_cons_header]
    rw [show (fun p : ℕ × ℚ × ℚ =>
          CsvLine.data (⟨b, f, m, p.1, p.2.1, p.2.2⟩ : ResultRow))
        = (CsvLine.data ∘ fun p : ℕ × ℚ × ℚ =>
            (⟨b, f, m, p.1, p.2.1, p.2.2⟩ : ResultRow)) from rfl,
      ← List.map_map]
    exact read_csv_map_data _
  rw [hread]
  refine ⟨?_, ?_, ?_, ?_⟩
  · simp [hz]
  · rw [hrows.1, hz]
  · rw [hrows.2.1, List.map_fst_zip memories times (by omega)]
  · rw [hrows.2.2, List.map_snd_zip memories times (by omega)]

end BenchmarkRunner

/-- Claim C7: writing `N` paired records through the Result Store
(`export_results_csv`) and reading the file back (the row extraction of
`pandas.read_csv` as used by `plotter.load_and_concat_csvs`) yields exactly
`N` data rows, with run indices `1..N` in insertion order and the original
memory and time values. -/
theorem claim7_roundtrip (b f m : String) (memories times : List ℚ)
    (h : memories.length = times.length) :
    (BenchmarkRunner.read_csv
        (BenchmarkRunner.export_results_csv b f m memories times)).length
      = memories.length ∧
    (BenchmarkRunner.read_csv
        (BenchmarkRunner.export_results_csv b f m memories times)).map
          BenchmarkRunner.ResultRow.run
      = List.range' 1 memories.length ∧
    (BenchmarkRunner.read_csv
        (BenchmarkRunner.export_results_csv b f m memories times)).map
          BenchmarkRunner.ResultRow.memory_mb
      = memories ∧
    (BenchmarkRunner.read_csv
        (BenchmarkRunner.export_results_csv b f m memories times)).map
          BenchmarkRunner.ResultRow.time_s
      = times :=
  BenchmarkRunner.export_read_roundtrip b f m memories times h

/-- Witness for claim C7: two records round-trip with indices `[1, 2]`. -/
theorem claim7_witness :
    (BenchmarkRunner.read_csv
        (BenchmarkRunner.export_results_csv ("duckdb") ("filtering_and_counting") ("cold")
          [(1 : ℚ), 2] [(3 : ℚ), 4])).length = 2 ∧
    (BenchmarkRunner.read_csv
        (BenchmarkRunner.export_results_csv ("duckdb") ("filtering_and_counting") ("cold")
          [(1 : ℚ), 2] [(3 : ℚ), 4])).map BenchmarkRunner.ResultRow.run = List.range' 1 2 ∧
    (BenchmarkRunner.read_csv
        (BenchmarkRunner.export_results_csv ("duckdb") ("filtering_and_counting") ("cold")
          [(1 : ℚ), 2] [(3 : ℚ), 4])).map BenchmarkRunner.ResultRow.memory_mb = [(1 : ℚ), 2] ∧
    (BenchmarkRunner.read_csv
        (BenchmarkRunner.export_results_csv ("duckdb") ("filtering_and_counting") ("cold")
          [(1 : ℚ), 2] [(3 : ℚ), 4])).map BenchmarkRunner.ResultRow.time_s = [(3 : ℚ), 4] :=
  claim7_roundtrip ("duckdb") ("filtering_and_counting") ("cold")
    [(1 : ℚ), 2] [(3 : ℚ), 4] rfl

/-- Claim C8: in warm mode the warm-up runs are never recorded — the
exported file does not depend on the warm-up outcomes in any way (success
or exception alike) — and when the `N` measured runs all yield records the
file holds exactly those `N` records with run indices `1..N`. -/
theorem claim8_warm_runs (b f m : String)
    (warm1 warm2 measured : List BenchmarkRunner.RunOutcome)
    (h : ∀ o ∈ measured, (BenchmarkRunner.hotExtract o).isSome = true) :
    BenchmarkRunner.run_warm_benchmark b f m warm1 measured
      = BenchmarkRunner.run_warm_benchmark b f m warm2 measured ∧
    (BenchmarkRunner.read_csv
        (BenchmarkRunner.run_warm_benchmark b f m warm1 measured)).length
      = measured.length ∧
    (BenchmarkRunner.read_csv
        (BenchmarkRunner.run_warm_benchmark b f m warm1 measured)).map
          BenchmarkRunner.ResultRow.run
      = List.range' 1 measured.length := by
  have hlen : (BenchmarkRunner.benchmarking measured).length = measured.length :=
    BenchmarkRunner.length_filterMap_of_isSome BenchmarkRunner.hotExtract measured h
  have hwarm : ∀ w : List BenchmarkRunner.RunOutcome,
      BenchmarkRunner.run_warm_benchmark b f m w measured
        = BenchmarkRunner.export_results_csv b f m
            ((BenchmarkRunner.benchmarking measured).map Prod.fst)
            ((BenchmarkRunner.benchmarking measured).map Prod.snd) := by
    intro w
    unfold BenchmarkRunner.run_warm_benchmark
    rw [BenchmarkRunner.foldl_keep]
  have hmaplen : ((BenchmarkRunner.benchmarking measured).map Prod.fst).length
      = measured.length := by
    rw [List.length_map, hlen]
  have hmaplen2 : ((BenchmarkRunner.benchmarking measured).map Prod.snd).length
      = measured.length := by
    rw [List.length_map, hlen]
  obtain ⟨h1, h2, _, _⟩ := BenchmarkRunner.export_read_roundtrip b f m
    ((BenchmarkRunner.benchmarking measured).map Prod.fst)
    ((BenchmarkRunner.benchmarking measured).map Prod.snd)
    (by rw [hmaplen, hmaplen2])
  refine ⟨by rw [hwarm warm1, hwarm warm2], ?_, ?_⟩
  · rw [hwarm warm1, h1, hmaplen]
  · rw [hwarm warm1, h2, hmaplen]

namespace BenchmarkRunner

theorem foldl_min_spec : ∀ (xs : List ℚ) (a : ℚ),
    (xs.foldl min a ≤ a ∧ ∀ y ∈ xs, xs.foldl min a ≤ y) ∧ xs.foldl min a ∈ a :: xs
  | [], a => by simp
  | x :: xs, a => by
    obtain ⟨⟨hle, hall⟩, hmem⟩ := foldl_min_spec xs (min a x)
    simp only [List.foldl_cons]
    refine ⟨⟨le_trans hle (min_le_left a x), ?_⟩, ?_⟩
    · intro y hy
      rcases List.mem_cons.1 hy with rfl | hy'
      · exact le_trans hle (min_le_right a y)
      · exact hall y hy'
    · rcases List.mem_cons.1 hmem with hm | hm
      · rcases min_choice a x with hc | hc <;> rw [hm, hc] <;> simp
      · simp [hm]

theorem foldl_max_spec : ∀ (xs : List ℚ) (a : ℚ),
    (a ≤ xs.foldl max a ∧ ∀ y ∈ xs, y ≤ xs.foldl max a) ∧ xs.foldl max a ∈ a :: xs
  | [], a => by simp
  | x :: xs, a => by
    obtain ⟨⟨hle, hall⟩, hmem⟩ := foldl_max_spec xs (max a x)
    simp only [List.foldl_cons]
    refine ⟨⟨le_trans (le_max_left a x) hle, ?_⟩, ?_⟩
    · intro y hy
      rcases List.mem_cons.1 hy with rfl | hy'
      · exact le_trans (le_max_right a y) hle
      · exact hall y hy'
    · rcases List.mem_cons.1 hmem with hm | hm
      · rcases max_choice a x with hc | hc <;> rw [hm, hc] <;> simp
      · simp [hm]

theorem pyMin_spec (values : List ℚ) (h : values ≠ []) :
    pyMin values ∈ values ∧ ∀ y ∈ values, pyMin values ≤ y := by
  obtain ⟨x, xs, rfl⟩ := List.exists_cons_of_ne_nil h
  obtain ⟨⟨hle, hall⟩, hmem⟩ := foldl_min_spec xs x
  refine ⟨hmem, ?_⟩
  intro y hy
  rcases List.mem_cons.1 hy with rfl | hy'
  · exact hle
  · exact hall y hy'

theorem pyMax_spec (values : List ℚ) (h : values ≠ []) :
    pyMax values ∈ values ∧ ∀ y ∈ values, y ≤ pyMax values := by
  obtain ⟨x, xs, rfl⟩ := List.exists_cons_of_ne_nil h
  obtain ⟨⟨hle, hall⟩, hmem⟩ := foldl_max_spec xs x
  refine ⟨hmem, ?_⟩
  intro y hy
  rcases List.mem_cons.1 hy with rfl | hy'
  · exact hle
  · exact hall y hy'

end BenchmarkRunner

/-- Claim C4 (counterexample): on the input `[1, 2, 3]` the Aggregator
(`benchmark_runner.summarize`) produces statistics but none of its output
lines is a median — the summary comprises only Mean, Std, CV, Min, Max and
Span, so the claim that it comprises a median as well is false. -/
theorem claim4_counterexample :
    ("Median") ∉ (BenchmarkRunner.summarizeLines id [(1 : ℚ), 2, 3]).map Prod.fst ∧
    BenchmarkRunner.summarize id [(1 : ℚ), 2, 3] ≠ .noData := by
  constructor
  · decide
  · decide

/-- Claim C4 (amended): for every non-empty sequence the Aggregator's
summary comprises the arithmetic mean, the sample standard deviation
(0 if fewer than 2 samples), the coefficient of variation std/mean×100
(0 if the mean is 0), the minimum, the maximum and the span max − min —
and nothing else: no median is reported.  `sq` is the floating-point
square root used by `statistics.stdev`; the standard-deviation clause
assumes it squares back to the sample variance. -/
theorem claim4_amended (sq : ℚ → ℚ) (values : List ℚ) (hne : values ≠ [])
    (hsq0 : 1 < values.length → 0 ≤ sq (BenchmarkRunner.sampleVar values))
    (hsq2 : 1 < values.length →
      sq (BenchmarkRunner.sampleVar values) ^ 2 = BenchmarkRunner.sampleVar values) :
    ∃ s : BenchmarkRunner.Summary,
      BenchmarkRunner.summarize sq values = .stats s ∧
      s.mean * values.length = values.sum ∧
      (1 < values.length →
        0 ≤ s.std ∧
        s.std ^ 2 * ((values.length : ℚ) - 1)
          = (values.map (fun x => (x - s.mean) ^ 2)).sum) ∧
      (values.length = 1 → s.std = 0) ∧
      (s.mean = 0 → s.cv = 0) ∧
      (s.mean ≠ 0 → s.cv * s.mean = s.std * 100) ∧
      s.minv ∈ values ∧ (∀ y ∈ values, s.minv ≤ y) ∧
      s.maxv ∈ values ∧ (∀ y ∈ values, y ≤ s.maxv) ∧
      s.span = s.maxv - s.minv ∧
      (BenchmarkRunner.summarizeLines sq values).map Prod.fst
        = ["Mean", "Std", "CV", "Min", "Max", "Span"] := by
  have hempty : ¬(values.isEmpty = true) := by
    simpa [List.isEmpty_iff] using hne
  have hs : BenchmarkRunner.summarize sq values = .stats
      ⟨BenchmarkRunner.pyMean values,
       if values.length > 1 then sq (BenchmarkRunner.sampleVar values) else 0,
       if BenchmarkRunner.pyMean values ≠ 0
       then ((if values.length > 1 then sq (BenchmarkRunner.sampleVar values) else 0) /
             BenchmarkRunner.pyMean values) * 100
       else 0,
       BenchmarkRunner.pyMin values, BenchmarkRunner.pyMax values,
       BenchmarkRunner.pyMax values - BenchmarkRunner.pyMin values⟩ := by
    rw [BenchmarkRunner.summarize, if_neg hempty]
  have hlenQ : (values.length : ℚ) ≠ 0 := by
    have : values.length ≠ 0 := by
      simpa [List.length_eq_zero] using hne
    exact_mod_cast this
  obtain ⟨hminmem, hminle⟩ := BenchmarkRunner.pyMin_spec values hne
  obtain ⟨hmaxmem, hmaxle⟩ := BenchmarkRunner.pyMax_spec values hne
  refine ⟨_, hs, ?_, ?_, ?_, ?_, ?_, hminmem, hminle, hmaxmem, hmaxle, rfl, ?_⟩
  · exact div_mul_cancel₀ values.sum hlenQ
  · intro hlen
    rw [if_pos hlen]
    refine ⟨hsq0 hlen, ?_⟩
    rw [hsq2 hlen, BenchmarkRunner.sampleVar]
    have h2 : (2 : ℚ) ≤ (values.length : ℚ) := by exact_mod_cast hlen
    exact div_mul_cancel₀ _ (by linarith)
  · intro hlen
    dsimp only
    rw [if_neg (by omega)]
  · intro hmean
    dsimp only at hmean ⊢
    simp [hmean]
  · intro hmean
    dsimp only at hmean ⊢
    rw [if_pos hmean]
    field_simp
  · rw [BenchmarkRunner.summarizeLines, hs]
    rfl

/-- Witness for claim C4 at the concrete input `[1, 2, 3]` (sample variance
1, so the identity serves as the square root). -/
theorem claim4_witness :
    ∃ s : BenchmarkRunner.Summary,
      BenchmarkRunner.summarize id [(1 : ℚ), 2, 3] = .stats s ∧
      s.minv ∈ [(1 : ℚ), 2, 3] ∧ s.span = s.maxv - s.minv := by
  have hvar : BenchmarkRunner.sampleVar [(1 : ℚ), 2, 3] = 1 := by
    norm_num [BenchmarkRunner.sampleVar, BenchmarkRunner.pyMean]
  obtain ⟨s, hs, _, _, _, _, _, hmin, _, _, _, hspan, _⟩ :=
    claim4_amended id [(1 : ℚ), 2, 3] (by simp)
      (fun _ => by rw [hvar]; norm_num)
      (fun _ => by rw [hvar]; norm_num)
  exact ⟨s, hs, hmin, hspan⟩

/-- Witness for claim C8: one raising and one succeeding warm-up run,
three measured runs — three rows, indices `[1, 2, 3]`, whatever the
warm-ups did. -/
theorem claim8_witness :
    BenchmarkRunner.run_warm_benchmark ("duckdb") ("filtering_and_counting") ("warm")
        [.raises ("warm boom"), BenchmarkRunner.goodRun]
        [BenchmarkRunner.goodRun, BenchmarkRunner.goodRun, BenchmarkRunner.goodRun]
      = BenchmarkRunner.run_warm_benchmark ("duckdb") ("filtering_and_counting") ("warm")
        [BenchmarkRunner.goodRun]
        [BenchmarkRunner.goodRun, BenchmarkRunner.goodRun, BenchmarkRunner.goodRun] ∧
    (BenchmarkRunner.read_csv
        (BenchmarkRunner.run_warm_benchmark ("duckdb") ("filtering_and_counting") ("warm")
          [.raises ("warm boom"), BenchmarkRunner.goodRun]
          [BenchmarkRunner.goodRun, BenchmarkRunner.goodRun,
           BenchmarkRunner.goodRun])).length = 3 ∧
    (BenchmarkRunner.read_csv
        (BenchmarkRunner.run_warm_benchmark ("duckdb") ("filtering_and_counting") ("warm")
          [.raises ("warm boom"), BenchmarkRunner.goodRun]
          [BenchmarkRunner.goodRun, BenchmarkRunner.goodRun,
           BenchmarkRunner.goodRun])).map BenchmarkRunner.ResultRow.run
      = List.range' 1 3 :=
  claim8_warm_runs ("duckdb") ("filtering_and_counting") ("warm")
    [.raises ("warm boom"), BenchmarkRunner.goodRun]
    [BenchmarkRunner.goodRun]
    [BenchmarkRunner.goodRun, BenchmarkRunner.goodRun, BenchmarkRunner.goodRun]
    (by
      intro o ho
      have ho' : o = BenchmarkRunner.goodRun := by
        simpa using ho
      rw [ho', BenchmarkRunner.hotExtract_goodRun]
      rfl)

namespace BenchmarkRunner

/-! ## Correctness of the pattern search -/

/-- A whitespace character is not a digit-or-dot character. -/
theorem pySpace_not_digitDot (c : Char) (h : isPySpace c = true) : isDigitDot c = false := by
  simp only [isPySpace, Bool.or_eq_true, decide_eq_true_eq] at h
  rcases h with ((((h1 | h1) | h1) | h1) | h1) | h1 <;> subst h1 <;> rfl

/-- A digit-or-dot character is not a whitespace character. -/
theorem digitDot_not_pySpace (c : Char) (h : isDigitDot c = true) : isPySpace c = false := by
  by_contra hc
  rw [Bool.not_eq_false] at hc
  rw [pySpace_not_digitDot c hc] at h
  exact Bool.false_ne_true h

theorem matchLit_self_append : ∀ (kw rest : List Char), matchLit kw (kw ++ rest) = some rest
  | [], _ => rfl
  | k :: kw, rest => by
    simp [matchLit, matchLit_self_append kw rest]

theorem tryPat_head_ne (k : Char) (kw unit : List Char) (c : Char) (cs : List Char)
    (h : c ≠ k) : tryPat (k :: kw) unit (c :: cs) = none := by
  simp [tryPat, matchLit, h]

theorem searchPat_append (k : Char) (kw unit : List Char) :
    ∀ (pre rest : List Char), k ∉ pre →
      searchPat (k :: kw) unit (pre ++ rest) = searchPat (k :: kw) unit rest
  | [], _, _ => by simp
  | c :: pre, rest, h => by
    have hc : c ≠ k := fun e => h (e ▸ List.mem_cons_self c pre)
    rw [List.cons_append, searchPat, tryPat_head_ne k kw unit c _ hc]
    exact searchPat_append k kw unit pre rest (fun hm => h (List.mem_cons_of_mem c hm))

theorem searchPat_eq_none (k : Char) (kw unit cs : List Char) (h : k ∉ cs) :
    searchPat (k :: kw) unit cs = none := by
  have h0 := searchPat_append k kw unit cs [] h
  rw [List.append_nil] at h0
  rw [h0, searchPat]

theorem takeWhile_all_append (p : Char → Bool) :
    ∀ (xs : List Char) (c : Char) (ys : List Char), (∀ a ∈ xs, p a = true) → p c = false →
      (xs ++ c :: ys).takeWhile p = xs ∧ (xs ++ c :: ys).dropWhile p = c :: ys
  | [], c, ys, _, hc => by
    simp [List.takeWhile_cons, List.dropWhile_cons, hc]
  | x :: xs, c, ys, hall, hc => by
    have hx : p x = true := hall x (List.mem_cons_self x xs)
    obtain ⟨h1, h2⟩ := takeWhile_all_append p xs c ys
      (fun a ha => hall a (List.mem_cons_of_mem x ha)) hc
    simp [List.takeWhile_cons, List.dropWhile_cons, hx, h1, h2]

/-- The match attempt succeeds, with group `m`, exactly at the start of a
well-formed token `KW = <m> UNIT` (single spaces, a `[0-9.]` group, a unit
not beginning with a space). -/
theorem tryPat_hit (kw : List Char) (u : Char) (us m rest : List Char)
    (hm : ∀ c ∈ m, isDigitDot c = true) (hne : m ≠ []) (hu : isPySpace u = false) :
    tryPat kw (u :: us) (kw ++ ' ' :: '=' :: ' ' :: (m ++ ' ' :: (u :: us ++ rest)))
      = some m := by
  obtain ⟨c0, m', rfl⟩ := List.exists_cons_of_ne_nil hne
  have hc0 : isDigitDot c0 = true := hm c0 (List.mem_cons_self c0 m')
  have hc0s : isPySpace c0 = false := digitDot_not_pySpace c0 hc0
  have htail : ∀ a ∈ m', isDigitDot a = true := fun a ha => hm a (List.mem_cons_of_mem c0 ha)
  obtain ⟨htw, hdw⟩ :=
    takeWhile_all_append isDigitDot m' ' ' (u :: us ++ rest) htail (by decide)
  have e1 : List.dropWhile isPySpace
      (' ' :: '=' :: ' ' :: (c0 :: m' ++ ' ' :: (u :: us ++ rest)))
      = '=' :: ' ' :: (c0 :: m' ++ ' ' :: (u :: us ++ rest)) := by
    rw [List.dropWhile_cons, if_pos (show isPySpace ' ' = true from rfl),
      List.dropWhile_cons, if_neg (show ¬(isPySpace '=' = true) by decide)]
  have e2 : List.dropWhile isPySpace (' ' :: (c0 :: m' ++ ' ' :: (u :: us ++ rest)))
      = c0 :: m' ++ ' ' :: (u :: us ++ rest) := by
    rw [List.dropWhile_cons, if_pos (show isPySpace ' ' = true from rfl),
      List.cons_append, List.dropWhile_cons, if_neg (by simp [hc0s]), ← List.cons_append]
  have e3 : List.takeWhile isDigitDot (c0 :: m' ++ ' ' :: (u :: us ++ rest))
      = c0 :: m' := by
    rw [List.cons_append, List.takeWhile_cons, if_pos hc0, htw]
  have e4 : List.dropWhile isDigitDot (c0 :: m' ++ ' ' :: (u :: us ++ rest))
      = ' ' :: (u :: us ++ rest) := by
    rw [List.cons_append, List.dropWhile_cons, if_pos hc0, hdw]
  have e5 : List.dropWhile isPySpace (' ' :: (u :: us ++ rest)) = u :: us ++ rest := by
    rw [List.dropWhile_cons, if_pos (show isPySpace ' ' = true from rfl),
      List.cons_append, List.dropWhile_cons, if_neg (by simp [hu]), ← List.cons_append]
  have e6 : matchLit (u :: us) (u :: us ++ rest) = some rest := by
    rw [show u :: us ++ rest = (u :: us) ++ rest from rfl, matchLit_self_append]
  unfold tryPat
  rw [matchLit_self_append]
  dsimp only
  rw [e1]
  simp only [List.isEmpty_cons, Bool.false_eq_true, if_false, if_true, e2, e3, e4, e5, e6]

theorem searchPat_cons_some (kw unit : List Char) (c : Char) (cs g : List Char)
    (h : tryPat kw unit (c :: cs) = some g) : searchPat kw unit (c :: cs) = some g := by
  rw [searchPat, h]

/-- The text of a well-formed memory token `Memory = <m> MB`. -/
def memToken (m : List Char) : List Char :=
  "Memory".toList ++ ' ' :: '=' :: ' ' :: (m ++ ' ' :: "MB".toList)

/-- The text of a well-formed time token `Time = <t> s`. -/
def timeToken (t : List Char) : List Char :=
  "Time".toList ++ ' ' :: '=' :: ' ' :: (t ++ ' ' :: "s".toList)

theorem memToken_example : memToken ("12.34".toList) = "Memory = 12.34 MB".toList := by decide

theorem timeToken_example : timeToken ("0.56".toList) = "Time = 0.56 s".toList := by decide

/-- Characterization of the literal matcher: it succeeds exactly on texts
that begin with the keyword. -/
theorem matchLit_eq_some_iff : ∀ (kw cs r : List Char),
    matchLit kw cs = some r ↔ cs = kw ++ r
  | [], cs, r => by simp [matchLit]
  | _ :: _, [], r => by simp [matchLit]
  | k :: kw, c :: cs, r => by
    rcases eq_or_ne c k with rfl | hck
    · simp [matchLit, matchLit_eq_some_iff kw cs r]
    · simp [matchLit, hck]

/-- A position where the keyword does not begin cannot match the pattern. -/
theorem tryPat_none_of_no_kw (kw unit cs : List Char) (h : ¬ kw <+: cs) :
    tryPat kw unit cs = none := by
  cases hm : matchLit kw cs with
  | none => simp [tryPat, hm]
  | some r =>
    exact absurd ⟨r, ((matchLit_eq_some_iff kw cs r).1 hm).symm⟩ h

/-- Whether the keyword begins at a position inside the noise is unaffected
by what follows the token's own copy of the keyword. -/
theorem not_prefix_extend (kw p b : List Char) (h : ¬ kw <+: (p ++ kw)) :
    ¬ kw <+: (p ++ (kw ++ b)) := by
  intro hb
  apply h
  have htake : kw = (p ++ (kw ++ b)).take kw.length := List.prefix_iff_eq_take.1 hb
  rw [← List.append_assoc,
    List.take_append_of_le_length (by simp : kw.length ≤ (p ++ kw).length)] at htake
  exact List.prefix_iff_eq_take.2 htake

/-- Leftmost search skips any prefix at whose positions the keyword does
not begin (the letters of the noise themselves are unrestricted). -/
theorem searchPat_skip_noise (kw unit : List Char) :
    ∀ (pre rest : List Char),
      (∀ i, i < pre.length → ¬ kw <+: (pre.drop i ++ rest)) →
      searchPat kw unit (pre ++ rest) = searchPat kw unit rest
  | [], rest, _ => by rw [List.nil_append]
  | c :: pre, rest, h => by
    have h0 : ¬ kw <+: (c :: (pre ++ rest)) := by
      have h0' := h 0 (by simp)
      simpa using h0'
    rw [List.cons_append, searchPat, tryPat_none_of_no_kw kw unit (c :: (pre ++ rest)) h0]
    exact searchPat_skip_noise kw unit pre rest
      (fun i hi => by
        have hi' := h (i + 1) (by simpa using Nat.succ_lt_succ hi)
        simpa using hi')

theorem searchPat_mem_hit (pre m X : List Char)
    (hpre : ∀ i, i < pre.length →
      ¬ ("Memory".toList <+: (pre.drop i ++ "Memory".toList)))
    (hm : ∀ c ∈ m, isDigitDot c = true) (hne : m ≠ []) :
    searchPat ("Memory".toList) ("MB".toList) (pre ++ (memToken m ++ X)) = some m := by
  have hkw : "Memory".toList = 'M' :: ['e', 'm', 'o', 'r', 'y'] := rfl
  have hub : "MB".toList = 'M' :: ['B'] := rfl
  have hbody : memToken m ++ X
      = "Memory".toList
          ++ (' ' :: '=' :: ' ' :: (m ++ ' ' :: (('M' :: ['B']) ++ X))) := by
    simp [memToken, hub, List.append_assoc]
  rw [searchPat_skip_noise ("Memory".toList) ("MB".toList) pre (memToken m ++ X)
    (fun i hi => by
      rw [hbody]
      exact not_prefix_extend _ _ _ (hpre i hi))]
  rw [hbody, hkw, hub]
  exact searchPat_cons_some _ _ _ _ _
    (tryPat_hit ('M' :: ['e', 'm', 'o', 'r', 'y']) 'M' ['B'] m X hm hne (by decide))

theorem searchPat_time_hit (pre t X : List Char)
    (hpre : ∀ i, i < pre.length →
      ¬ ("Time".toList <+: (pre.drop i ++ "Time".toList)))
    (ht : ∀ c ∈ t, isDigitDot c = true) (hne : t ≠ []) :
    searchPat ("Time".toList) ("s".toList) (pre ++ (timeToken t ++ X)) = some t := by
  have hkw : "Time".toList = 'T' :: ['i', 'm', 'e'] := rfl
  have hub : "s".toList = 's' :: [] := rfl
  have hbody : timeToken t ++ X
      = "Time".toList
          ++ (' ' :: '=' :: ' ' :: (t ++ ' ' :: (('s' :: []) ++ X))) := by
    simp [timeToken, hub, List.append_assoc]
  rw [searchPat_skip_noise ("Time".toList) ("s".toList) pre (timeToken t ++ X)
    (fun i hi => by
      rw [hbody]
      exact not_prefix_extend _ _ _ (hpre i hi))]
  rw [hbody, hkw, hub]
  exact searchPat_cons_some _ _ _ _ _
    (tryPat_hit ('T' :: ['i', 'm', 'e']) 's' [] t X ht hne (by decide))

/-- If the `Time = ... s` pattern matches nowhere in the text, the run is
treated as failed: `parse_output` returns `None`. -/
theorem parse_output_none_of_time_unmatched (out : List Char)
    (h : searchPat ("Time".toList) ("s".toList) out = none) :
    parse_output out = .ok none := by
  unfold parse_output
  rw [h]
  cases hmem : searchPat ("Memory".toList) ("MB".toList) out <;> rfl

/-- Text with no `'T'` at all has no `Time = ... s` match, so `parse_output`
returns `None`: the run is treated as failed. -/
theorem parse_output_none_of_no_time (out : List Char) (h : 'T' ∉ out) :
    parse_output out = .ok none := by
  refine parse_output_none_of_time_unmatched out ?_
  rw [show "Time".toList = 'T' :: ['i', 'm', 'e'] from rfl]
  exact searchPat_eq_none 'T' ['i', 'm', 'e'] ("s".toList) out h

/-- No character of a `[0-9.]` group is an `'M'` or a `'T'`. -/
theorem group_not_kw (m : List Char) (hm : ∀ c ∈ m, isDigitDot c = true) :
    'M' ∉ m ∧ 'T' ∉ m := by
  constructor
  · intro hmem
    exact absurd (hm 'M' hmem) (by decide)
  · intro hmem
    exact absurd (hm 'T' hmem) (by decide)

theorem memToken_no_T (m : List Char) (hm : ∀ c ∈ m, isDigitDot c = true) :
    'T' ∉ memToken m := by
  have hkw : "Memory".toList = 'M' :: ['e', 'm', 'o', 'r', 'y'] := rfl
  have hub : "MB".toList = 'M' :: ['B'] := rfl
  intro hmem
  simp only [memToken, hkw, hub, List.mem_append, List.mem_cons, List.not_mem_nil,
    or_false] at hmem
  rcases hmem with (h | h | h | h | h | h) | h | h | h | h | h | h | h
  all_goals first
    | exact absurd (hm 'T' h) (by decide)
    | exact absurd h (by decide)

theorem timeToken_no_M (t : List Char) (ht : ∀ c ∈ t, isDigitDot c = true) :
    'M' ∉ timeToken t := by
  have hkw : "Time".toList = 'T' :: ['i', 'm', 'e'] := rfl
  have hub : "s".toList = 's' :: [] := rfl
  intro hmem
  simp only [timeToken, hkw, hub, List.mem_append, List.mem_cons, List.not_mem_nil,
    or_false] at hmem
  rcases hmem with (h | h | h | h) | h | h | h | h | h | h | h
  all_goals first
    | exact absurd (ht 'M' h) (by decide)
    | exact absurd h (by decide)

end BenchmarkRunner

/-- Claim C3 (counterexample): the cold-mode parser of `benchmark_runner`
does not accept a signed memory value.  On text carrying the token
`Memory = -12.34 MB` (and a valid time token) it yields no match — the run
is treated as failed — instead of extracting `(-12.34, 0.56)` as the claim
asserts. -/
theorem claim3_counterexample :
    BenchmarkRunner.parse_output ("Memory = -12.34 MB more noise Time = 0.56 s".toList)
      = .ok none ∧
    (Except.ok none : Except BenchmarkRunner.PyError (Option (ℚ × ℚ)))
      ≠ .ok (some (-(617 / 50 : ℚ), 14 / 25)) := by
  constructor
  · rfl
  · intro h
    simp at h

/-- Claim C3 (amended): the cold-mode parser, applied to text containing an
unsigned `Memory = <float> MB` token and a `Time = <float> s` token in
either order, with arbitrary surrounding text at no position of which the
respective keyword (`Memory`, `Time`) begins earlier than its token
(leftmost-match semantics), extracts exactly those two numeric values; a
signed (negative) memory value is NOT matched (see the counterexample);
if the `Time` token is absent — its pattern matches nowhere — the parser
yields no match and the run is treated as failed; and on the spec's
literal example it returns `(12.34, 0.56)`. -/
theorem claim3_amended :
    (∀ pre mid post m t : List Char,
      (∀ i, i < pre.length →
        ¬ ("Memory".toList <+: (pre.drop i ++ "Memory".toList))) →
      (∀ i, i < (pre ++ (BenchmarkRunner.memToken m ++ mid)).length →
        ¬ ("Time".toList
            <+: ((pre ++ (BenchmarkRunner.memToken m ++ mid)).drop i ++ "Time".toList))) →
      (∀ i, i < pre.length →
        ¬ ("Time".toList <+: (pre.drop i ++ "Time".toList))) →
      (∀ i, i < (pre ++ (BenchmarkRunner.timeToken t ++ mid)).length →
        ¬ ("Memory".toList
            <+: ((pre ++ (BenchmarkRunner.timeToken t ++ mid)).drop i ++ "Memory".toList))) →
      (∀ c ∈ m, isDigitDot c = true) → m ≠ [] →
      m.count '.' ≤ 1 → m.any (·.isDigit) = true →
      (∀ c ∈ t, isDigitDot c = true) → t ≠ [] →
      t.count '.' ≤ 1 → t.any (·.isDigit) = true →
      ∃ vm vt : ℚ, pyFloat? m = some vm ∧ pyFloat? t = some vt ∧
        BenchmarkRunner.parse_output
          (pre ++ (BenchmarkRunner.memToken m
            ++ (mid ++ (BenchmarkRunner.timeToken t ++ post))))
          = .ok (some (vm, vt)) ∧
        BenchmarkRunner.parse_output
          (pre ++ (BenchmarkRunner.timeToken t
            ++ (mid ++ (BenchmarkRunner.memToken m ++ post))))
          = .ok (some (vm, vt))) ∧
    (∀ out : List Char,
      BenchmarkRunner.searchPat ("Time".toList) ("s".toList) out = none →
      BenchmarkRunner.parse_output out = .ok none) ∧
    BenchmarkRunner.parse_output
        ("noise noise Memory = 12.34 MB more noise trailing".toList)
      = .ok none ∧
    BenchmarkRunner.parse_output
        ("noise noise Memory = 12.34 MB more noise Time = 0.56 s trailing".toList)
      = .ok (some (617 / 50, 14 / 25)) := by
  refine ⟨?_, BenchmarkRunner.parse_output_none_of_time_unmatched, ?_, ?_⟩
  · intro pre mid post m t hM1 hT1 hT2 hM2 hm hmne hmc hmd ht htne htc htd
    obtain ⟨vm, hvm⟩ : ∃ vm, pyFloat? m = some vm :=
      ⟨_, by rw [pyFloat?, if_pos ⟨hmc, hmd⟩]⟩
    obtain ⟨vt, hvt⟩ : ∃ vt, pyFloat? t = some vt :=
      ⟨_, by rw [pyFloat?, if_pos ⟨htc, htd⟩]⟩
    have hmem1 := BenchmarkRunner.searchPat_mem_hit pre m
      (mid ++ (BenchmarkRunner.timeToken t ++ post)) hM1 hm hmne
    have htime1 := BenchmarkRunner.searchPat_time_hit
      (pre ++ (BenchmarkRunner.memToken m ++ mid)) t post hT1 ht htne
    have hassoc1 : pre ++ (BenchmarkRunner.memToken m
          ++ (mid ++ (BenchmarkRunner.timeToken t ++ post)))
        = (pre ++ (BenchmarkRunner.memToken m ++ mid))
          ++ (BenchmarkRunner.timeToken t ++ post) := by
      simp [List.append_assoc]
    have htime2 := BenchmarkRunner.searchPat_time_hit pre t
      (mid ++ (BenchmarkRunner.memToken m ++ post)) hT2 ht htne
    have hmem2 := BenchmarkRunner.searchPat_mem_hit
      (pre ++ (BenchmarkRunner.timeToken t ++ mid)) m post hM2 hm hmne
    have hassoc2 : pre ++ (BenchmarkRunner.timeToken t
          ++ (mid ++ (BenchmarkRunner.memToken m ++ post)))
        = (pre ++ (BenchmarkRunner.timeToken t ++ mid))
          ++ (BenchmarkRunner.memToken m ++ post) := by
      simp [List.append_assoc]
    refine ⟨vm, vt, hvm, hvt, ?_, ?_⟩
    · exact BenchmarkRunner.parse_output_eq_of _ m t vm vt hmem1
        (by rw [hassoc1]; exact htime1) hvm hvt
    · exact BenchmarkRunner.parse_output_eq_of _ m t vm vt
        (by rw [hassoc2]; exact hmem2) htime2 hvm hvt
  · rfl
  · have hm1 : pyFloat? ("12.34".toList) = some (617 / 50) := by
      have h : pyFloatParts ("12.34".toList) = some (12, 34, 2) := by decide
      rw [pyFloat?_eq_parts, h]
      norm_num
    have ht1 : pyFloat? ("0.56".toList) = some (14 / 25) := by
      have h : pyFloatParts ("0.56".toList) = some (0, 56, 2) := by decide
      rw [pyFloat?_eq_parts, h]
      norm_num
    exact BenchmarkRunner.parse_output_eq_of _ ("12.34".toList) ("0.56".toList) _ _
      (by decide) (by decide) hm1 ht1

/-- Witness for claim C3: the spec's literal noise text in both token
orders, and noise that itself contains the letters `M`/`T`
(`"Total Memory = 12.34 MB Time = 0.56 s"`), with `m = "12.34"` and
`t = "0.56"`. -/
theorem claim3_witness :
    (∃ vm vt : ℚ, pyFloat? ("12.34".toList) = some vm ∧ pyFloat? ("0.56".toList) = some vt ∧
      BenchmarkRunner.parse_output
        ("noise noise ".toList ++ (BenchmarkRunner.memToken ("12.34".toList)
          ++ (" more noise ".toList ++ (BenchmarkRunner.timeToken ("0.56".toList)
          ++ " trailing".toList))))
        = .ok (some (vm, vt)) ∧
      BenchmarkRunner.parse_output
        ("noise noise ".toList ++ (BenchmarkRunner.timeToken ("0.56".toList)
          ++ (" more noise ".toList ++ (BenchmarkRunner.memToken ("12.34".toList)
          ++ " trailing".toList))))
        = .ok (some (vm, vt))) ∧
    (∃ vm vt : ℚ, pyFloat? ("12.34".toList) = some vm ∧ pyFloat? ("0.56".toList) = some vt ∧
      BenchmarkRunner.parse_output
        ("Total ".toList ++ (BenchmarkRunner.memToken ("12.34".toList)
          ++ (" ".toList ++ (BenchmarkRunner.timeToken ("0.56".toList)
          ++ "".toList))))
        = .ok (some (vm, vt)) ∧
      BenchmarkRunner.parse_output
        ("Total ".toList ++ (BenchmarkRunner.timeToken ("0.56".toList)
          ++ (" ".toList ++ (BenchmarkRunner.memToken ("12.34".toList)
          ++ "".toList))))
        = .ok (some (vm, vt))) :=
  ⟨claim3_amended.1 ("noise noise ".toList) (" more noise ".toList) (" trailing".toList)
      ("12.34".toList) ("0.56".toList)
      (by decide) (by decide) (by decide) (by decide)
      (by decide) (by decide) (by decide) (by decide)
      (by decide) (by decide) (by decide) (by decide),
   claim3_amended.1 ("Total ".toList) (" ".toList) ("".toList)
      ("12.34".toList) ("0.56".toList)
      (by decide) (by decide) (by decide) (by decide)
      (by decide) (by decide) (by decide) (by decide)
      (by decide) (by decide) (by decide) (by decide)⟩

end DuckBench
